import Mathlib

/-!
Verification of the chat-widget controller in `static/app.js`.

The source is a single IIFE wiring a chat form to a backend: `appendMessage`
renders one message bubble at the end of the message list, `showTyping`
toggles the typing indicator, `sendMessage` posts the trimmed input to
`POST /chat` and renders the reply (or an error message), and a
`DOMContentLoaded` handler appends a fixed greeting when the view is empty.

Embedding choices:
* DOM mutations and the network call are modelled as an explicit trace of
  `Event`s emitted by one send; replaying a trace over a `ClientState`
  gives the resulting view state.
* The outcome of `fetch` plus `resp.json()` is an oracle parameter
  (`FetchOutcome`): the promise either rejects, or resolves with a status
  code and a body that may fail JSON parsing.
* A parsed JSON body is `JsonBody`: JSON `null`, some other non-object
  value (number, string, boolean, array — property access on these yields
  `undefined`), or an object whose `response` / `intent` fields are
  optional strings and whose `confidence` field is an optional rational.
  JavaScript truthiness of these values: a string is truthy iff non-empty,
  a number is truthy iff non-zero, an absent field (`undefined`) is falsy.
* JavaScript exceptions inside the `try` block are values of `JsError`;
  the `catch` clause turns them into the network-error message, so none
  escapes `sendMessage`.
-/

/-- Metadata attached to a bot message: `{intent, confidence}` as passed to
`appendMessage`. Confidence is modelled as a rational number. -/
structure Meta where
  intent : String
  confidence : ℚ
deriving DecidableEq, Repr

/-- One rendered chat message: the bubble text, the sender flag
(`isBot`), and the optional metadata argument of `appendMessage`. -/
structure Message where
  text : String
  isBot : Bool
  meta : Option Meta
deriving DecidableEq, Repr

/-- The JSON body of one `POST /chat` request: `{"message": "<user text>"}`
as built by `JSON.stringify({message: value})`. -/
structure ChatRequest where
  message : String
deriving DecidableEq, Repr

/-- One observable action of the controller, in program order. -/
inductive Event where
  /-- `appendMessage(text, isBot, meta)`: a bubble appended to the view. -/
  | append (text : String) (isBot : Bool) (meta : Option Meta)
  /-- `input.value = ''`. -/
  | clearInput
  /-- `input.focus()`. -/
  | focusInput
  /-- `showTyping(show)`. -/
  | setTyping (visible : Bool)
  /-- The `fetch('/chat', {method: 'POST', ...})` call being issued. -/
  | post (r : ChatRequest)
deriving DecidableEq, Repr

/-- A successfully parsed JSON response body, as seen by the untyped
JavaScript code. -/
inductive JsonBody where
  /-- The JSON value `null`: falsy, and property access on it throws. -/
  | null
  /-- Any other non-object JSON value (number, string, boolean, array):
  `data.response` / `data.intent` / `data.confidence` are `undefined`. -/
  | prim
  /-- A JSON object; `response` and `intent` are its optional string
  fields, `confidence` its optional numeric field. -/
  | obj (response : Option String) (intent : Option String)
      (confidence : Option ℚ)
deriving DecidableEq, Repr

/-- The resolution of the awaited network interaction of one send. -/
inductive FetchOutcome where
  /-- The `fetch` promise rejects (network-level failure). -/
  | reject
  /-- The `fetch` promise resolves with HTTP status `status`; `body` is
  `some b` when `resp.json()` resolves with `b`, `none` when it rejects. -/
  | response (status : ℕ) (body : Option JsonBody)
deriving DecidableEq, Repr

/-- A JavaScript exception raised inside the `try` block of
`sendMessage`. -/
inductive JsError where
  /-- `await fetch(...)` rejected. -/
  | fetchRejected
  /-- `await resp.json()` rejected (body is not valid JSON). -/
  | jsonParseFailed
  /-- `data.intent` on `data === null` throws a TypeError. -/
  | typeError
deriving DecidableEq, Repr

/-- `resp.ok` of the Fetch API: true iff the status is in 200..299. -/
def respOk (status : ℕ) : Bool := 200 ≤ status && status ≤ 299

/-- `input.value.trim()` of line 36: strip whitespace from both ends of
the string. -/
def jsTrim (s : String) : String :=
  ⟨((s.data.dropWhile Char.isWhitespace).reverse.dropWhile
      Char.isWhitespace).reverse⟩

/-- The fallback bot text of line 57:
`"I'm sorry, I couldn't process that."`. -/
def fallbackText : String := "I\x27m sorry, I couldn\x27t process that."

/-- The fixed catch-path text of line 61:
`"Network error: failed to reach the server."`. -/
def networkErrorText : String := "Network error: failed to reach the server."

/-- `Server error (${resp.status})` of line 52. -/
def serverErrorText (status : ℕ) : String :=
  "Server error (" ++ toString status ++ ")"

/-- `data.intent || 'unknown'` of line 58. -/
def intentOf (intent : Option String) : String :=
  match intent with
  | some s => if s = "" then "unknown" else s
  | none => "unknown"

/-- `data.confidence || 0` of line 58 (`0` itself is falsy). -/
def confidenceOf (confidence : Option ℚ) : ℚ :=
  match confidence with
  | some q => if q = 0 then 0 else q
  | none => 0

/-- The body of the `try` block of `sendMessage` (lines 44..59), given the
already-trimmed non-empty `value`: the events it emits, and the exception
it raises, if any. The `fetch` call itself is issued in every case. -/
def tryBody (value : String) (outcome : FetchOutcome) :
    List Event × Option JsError :=
  let postEv := Event.post ⟨value⟩
  match outcome with
  | .reject => ([postEv], some .fetchRejected)
  | .response status body =>
    if !respOk status then
      ([postEv, .append (serverErrorText status) true (some ⟨"error", 0⟩)],
        none)
    else
      match body with
      | none => ([postEv], some .jsonParseFailed)
      | some b =>
        match b with
        | .null =>
          -- `data && data.response` short-circuits to falsy, but
          -- `data.intent` on null throws before `appendMessage` runs.
          ([postEv], some .typeError)
        | .prim =>
          ([postEv, .append fallbackText true (some ⟨"unknown", 0⟩)], none)
        | .obj response intent confidence =>
          let botText :=
            match response with
            | some s => if s = "" then fallbackText else s
            | none => fallbackText
          ([postEv,
            .append botText true
              (some ⟨intentOf intent, confidenceOf confidence⟩)], none)

/-- The catch clause (lines 60..62): renders the fixed network-error
message; it rethrows nothing. -/
def catchEvents : List Event :=
  [.append networkErrorText true (some ⟨"error", 0⟩)]

/-- `sendMessage` (lines 35..66) as a trace: the events emitted by one
send given the raw input-field value and the resolution of the network
interaction, paired with the exception escaping the function (the catch
clause swallows every exception, so this is always `none`). -/
def sendMessage (inputValue : String) (outcome : FetchOutcome) :
    List Event × Option JsError :=
  let value := jsTrim inputValue
  -- `if(!value) return;` — a string is falsy exactly when empty.
  if value = "" then ([], none)
  else
    let (tryEvs, err) := tryBody value outcome
    let handled := match err with
      | none => []
      | some _ => catchEvents
    ([.append value false none, .clearInput, .focusInput, .setTyping true]
        ++ tryEvs ++ handled ++ [.setTyping false],
      none)

/-- The greeting text of lines 85..89. -/
def greetingText : String :=
  "Hi, I\x27m the Vibeathon bot! You can ask me about joining or " ++
  "registration, event dates and costs, collaborations, social media, " ++
  "GitHub, contact info, current projects, or even provide feedback."

/-- The `DOMContentLoaded` handler (lines 83..91) as a trace, given the
current message list: appends the greeting iff the view is empty. -/
def domLoadedEvents (messages : List Message) : List Event :=
  if messages.length = 0 then
    [.append greetingText true (some ⟨"greeting", 1⟩)]
  else []

/-- The UI state owned by the controller: the rendered message list, the
input field value, and the typing-indicator visibility. -/
structure ClientState where
  messages : List Message
  inputValue : String
  typingVisible : Bool
deriving DecidableEq, Repr

/-- The effect of one event on the UI state. `appendMessage` only ever
appends at the end of the message list (line 19, `messages.appendChild`);
a `post` does not touch the view. -/
def applyEvent (st : ClientState) : Event → ClientState
  | .append text isBot meta =>
    { st with messages := st.messages ++ [⟨text, isBot, meta⟩] }
  | .clearInput => { st with inputValue := "" }
  | .focusInput => st
  | .setTyping visible => { st with typingVisible := visible }
  | .post _ => st

/-- Replay a trace over a state. -/
def replay (st : ClientState) (evs : List Event) : ClientState :=
  evs.foldl applyEvent st

/-- The messages appended by a trace, in order. -/
def appendsOf (evs : List Event) : List Message :=
  evs.filterMap fun e =>
    match e with
    | .append text isBot meta => some ⟨text, isBot, meta⟩
    | _ => none

/-- The user messages appended by a trace. -/
def userAppends (evs : List Event) : List Message :=
  (appendsOf evs).filter fun m => !m.isBot

/-- The bot messages appended by a trace. -/
def botAppends (evs : List Event) : List Message :=
  (appendsOf evs).filter fun m => m.isBot

/-- The `POST /chat` requests issued by a trace, in order. -/
def postsOf (evs : List Event) : List ChatRequest :=
  evs.filterMap fun e =>
    match e with
    | .post r => some r
    | _ => none

/-- The typing-indicator toggles of a trace, in order. -/
def typingTogglesOf (evs : List Event) : List Bool :=
  evs.filterMap fun e =>
    match e with
    | .setTyping visible => some visible
    | _ => none

/-- C1: for every submit whose input is non-empty after trimming, the send
flow appends exactly one user message and exactly one bot-side message
(success reply, server-error message, or network-error message) — never
both an error and a success message, and never neither. -/
theorem send_appends_one_user_one_bot (input : String) (outcome : FetchOutcome)
    (h : jsTrim input ≠ "") :
    (userAppends (sendMessage input outcome).1).length = 1 ∧
    (botAppends (sendMessage input outcome).1).length = 1 := by
  cases outcome with
  | reject =>
    simp [sendMessage, tryBody, h, userAppends, botAppends, appendsOf,
      catchEvents]
  | response status body =>
    by_cases hok : respOk status = true
    · rcases body with _ | (_ | _ | ⟨r, i, c⟩) <;>
        simp [sendMessage, tryBody, h, hok, userAppends, botAppends,
          appendsOf, catchEvents]
    · simp only [Bool.not_eq_true] at hok
      simp [sendMessage, tryBody, h, hok, userAppends, botAppends,
        appendsOf, catchEvents]

/-- Witness for C1 at a concrete input. -/
theorem send_appends_one_user_one_bot_witness :
    (userAppends (sendMessage "hi" .reject).1).length = 1 ∧
    (botAppends (sendMessage "hi" .reject).1).length = 1 :=
  send_appends_one_user_one_bot "hi" .reject (by decide)

/-- C2: for every submit whose input is empty or whitespace-only after
trimming, the operation is a no-op: zero messages appended, zero network
requests issued (the whole send returns immediately). -/
theorem send_empty_input_noop (input : String) (outcome : FetchOutcome)
    (h : jsTrim input = "") :
    appendsOf (sendMessage input outcome).1 = [] ∧
    postsOf (sendMessage input outcome).1 = [] ∧
    sendMessage input outcome = ([], none) := by
  simp [sendMessage, h, appendsOf, postsOf]

/-- Witness for C2 at a whitespace-only input. -/
theorem send_empty_input_noop_witness :
    appendsOf (sendMessage "   " .reject).1 = [] ∧
    postsOf (sendMessage "   " .reject).1 = [] ∧
    sendMessage "   " .reject = ([], none) :=
  send_empty_input_noop "   " .reject (by decide)

/-- C3, counterexample: the body `{"response": ""}` has the `response`
field present with value `""`, yet the rendered bot text is the fallback
string, not the field's value (line 57 tests JavaScript truthiness of the
field, not presence, and `""` is falsy). -/
theorem response_field_presence_counterexample :
    (botAppends
        (sendMessage "hi" (.response 200 (some (.obj (some "") none none)))).1).map
      Message.text = [fallbackText] ∧ fallbackText ≠ "" := by
  decide

/-- C3 as amended: for a 2xx response with an object body, a present and
non-empty `response` field is rendered verbatim; a missing `response`
field, and also a present-but-empty one, render the fixed fallback
string. -/
theorem response_field_rendering (input : String) (status : ℕ) (s : String)
    (i : Option String) (c : Option ℚ)
    (h : jsTrim input ≠ "") (hok : respOk status = true) :
    (s ≠ "" →
      (botAppends
          (sendMessage input (.response status (some (.obj (some s) i c)))).1).map
        Message.text = [s]) ∧
    ((botAppends
        (sendMessage input (.response status (some (.obj none i c)))).1).map
      Message.text = [fallbackText]) ∧
    ((botAppends
        (sendMessage input (.response status (some (.obj (some "") i c)))).1).map
      Message.text = [fallbackText]) := by
  refine ⟨fun hs => ?_, ?_, ?_⟩ <;>
    simp_all [sendMessage, tryBody, botAppends, appendsOf]

/-- Witness for the amended C3 at concrete inputs. -/
theorem response_field_rendering_witness :
    (botAppends
        (sendMessage "hi" (.response 200 (some (.obj (some "yo") none none)))).1).map
      Message.text = ["yo"] ∧
    (botAppends
        (sendMessage "hi" (.response 200 (some (.obj none none none)))).1).map
      Message.text = [fallbackText] :=
  ⟨(response_field_rendering "hi" 200 "yo" none none (by decide) (by decide)).1
      (by decide),
    (response_field_rendering "hi" 200 "yo" none none (by decide) (by decide)).2.1⟩

/-- C4: for every non-2xx response, exactly one bot message is rendered;
its text contains the numeric status code, its metadata is intent
`error` with confidence 0, and the response body is ignored (any two
bodies yield identical behaviour). -/
theorem server_error_rendering (input : String) (status : ℕ)
    (body other : Option JsonBody)
    (h : jsTrim input ≠ "") (hnok : respOk status = false) :
    sendMessage input (.response status body) =
      sendMessage input (.response status other) ∧
    botAppends (sendMessage input (.response status body)).1 =
      [⟨serverErrorText status, true, some ⟨"error", 0⟩⟩] ∧
    (toString status).toList <:+: (serverErrorText status).toList := by
  refine ⟨?_, ?_, ⟨"Server error (".toList, ")".toList, rfl⟩⟩ <;>
    simp [sendMessage, tryBody, h, hnok, botAppends, appendsOf]

/-- Witness for C4 at HTTP 500; the rendered text contains "500". -/
theorem server_error_rendering_witness :
    sendMessage "hi" (.response 500 none) =
      sendMessage "hi" (.response 500 (some .prim)) ∧
    botAppends (sendMessage "hi" (.response 500 none)).1 =
      [⟨serverErrorText 500, true, some ⟨"error", 0⟩⟩] ∧
    (toString 500).toList <:+: (serverErrorText 500).toList :=
  server_error_rendering "hi" 500 none (some .prim) (by decide) (by decide)

/-- C5: when the fetch promise rejects, exactly one bot message is
rendered, with the fixed network-error text and metadata intent `error`,
confidence 0, and no exception escapes `sendMessage`. -/
theorem network_error_rendering (input : String) (h : jsTrim input ≠ "") :
    botAppends (sendMessage input .reject).1 =
      [⟨networkErrorText, true, some ⟨"error", 0⟩⟩] ∧
    (sendMessage input .reject).2 = none := by
  simp [sendMessage, tryBody, h, botAppends, appendsOf, catchEvents]

/-- Witness for C5 at a concrete input. -/
theorem network_error_rendering_witness :
    botAppends (sendMessage "hi" .reject).1 =
      [⟨networkErrorText, true, some ⟨"error", 0⟩⟩] ∧
    (sendMessage "hi" .reject).2 = none :=
  network_error_rendering "hi" (by decide)

/-- C6: for every send of non-empty input, the typing indicator is toggled
exactly twice — shown at send start, hidden at the end — and hiding it is
the very last action of the send, on every exit path. -/
theorem typing_indicator_lifecycle (input : String) (outcome : FetchOutcome)
    (h : jsTrim input ≠ "") :
    typingTogglesOf (sendMessage input outcome).1 = [true, false] ∧
    (sendMessage input outcome).1.getLast? = some (.setTyping false) := by
  cases outcome with
  | reject =>
    simp [sendMessage, tryBody, h, typingTogglesOf, catchEvents]
  | response status body =>
    by_cases hok : respOk status = true
    · rcases body with _ | (_ | _ | ⟨r, i, c⟩) <;>
        simp [sendMessage, tryBody, h, hok, typingTogglesOf, catchEvents]
    · simp only [Bool.not_eq_true] at hok
      simp [sendMessage, tryBody, h, hok, typingTogglesOf, catchEvents]

/-- Witness for C6 at a concrete input. -/
theorem typing_indicator_lifecycle_witness :
    typingTogglesOf (sendMessage "hi" (.response 200 none)).1 = [true, false] ∧
    (sendMessage "hi" (.response 200 none)).1.getLast? =
      some (.setTyping false) :=
  typing_indicator_lifecycle "hi" (.response 200 none) (by decide)

/-- C7: on page load the greeting handler appends exactly one greeting
message (intent `greeting`, confidence 1) when the view is empty, and
appends nothing when the view already has messages. -/
theorem greeting_on_load (messages : List Message) :
    (messages = [] →
      domLoadedEvents messages =
        [.append greetingText true (some ⟨"greeting", 1⟩)]) ∧
    (messages ≠ [] → domLoadedEvents messages = []) := by
  constructor
  · intro h
    simp [domLoadedEvents, h]
  · intro h
    simp [domLoadedEvents, List.length_eq_zero, h]

/-- Witness for C7: empty view gets the greeting, non-empty view gets
nothing. -/
theorem greeting_on_load_witness :
    domLoadedEvents [] =
      [.append greetingText true (some ⟨"greeting", 1⟩)] ∧
    domLoadedEvents [⟨"x", false, none⟩] = [] :=
  ⟨(greeting_on_load []).1 rfl,
    (greeting_on_load [⟨"x", false, none⟩]).2 (by decide)⟩

/-- C8: every send of non-empty input issues exactly one `POST /chat`
request, whose JSON body is the single-field object
`{"message": <trimmed input>}` — on every outcome, including rejection. -/
theorem single_post_request (input : String) (outcome : FetchOutcome)
    (h : jsTrim input ≠ "") :
    postsOf (sendMessage input outcome).1 = [⟨jsTrim input⟩] := by
  cases outcome with
  | reject =>
    simp [sendMessage, tryBody, h, postsOf, catchEvents]
  | response status body =>
    by_cases hok : respOk status = true
    · rcases body with _ | (_ | _ | ⟨r, i, c⟩) <;>
        simp [sendMessage, tryBody, h, hok, postsOf, catchEvents]
    · simp only [Bool.not_eq_true] at hok
      simp [sendMessage, tryBody, h, hok, postsOf, catchEvents]

/-- Witness for C8 at a concrete input. -/
theorem single_post_request_witness :
    postsOf (sendMessage " hi " .reject).1 = [⟨jsTrim " hi "⟩] :=
  single_post_request " hi " .reject (by decide)

/-- C9: replaying any controller trace only appends messages at the end of
the view, in trace order: the resulting message list is the old list
followed by exactly the appended messages, so display order equals
chronological append order and no message is mutated, removed or
reordered. -/
theorem view_append_only (st : ClientState) (evs : List Event) :
    (replay st evs).messages = st.messages ++ appendsOf evs := by
  induction evs generalizing st with
  | nil => simp [replay, appendsOf]
  | cons e rest ih =>
    have h1 : replay st (e :: rest) = replay (applyEvent st e) rest := rfl
    rw [h1, ih]
    cases e <;> simp [applyEvent, appendsOf, List.filterMap_cons]

/-- C10: a 2xx response whose body fails to parse as JSON takes the catch
path: the rendered bot message is the fixed network-error text with
metadata intent `error`, confidence 0 — not the success fallback
string. -/
theorem json_parse_failure_takes_catch_path (input : String) (status : ℕ)
    (h : jsTrim input ≠ "") (hok : respOk status = true) :
    botAppends (sendMessage input (.response status none)).1 =
      [⟨networkErrorText, true, some ⟨"error", 0⟩⟩] ∧
    networkErrorText ≠ fallbackText := by
  refine ⟨?_, by decide⟩
  simp [sendMessage, tryBody, h, hok, botAppends, appendsOf, catchEvents]

/-- Witness for C10 at a concrete input and status 200. -/
theorem json_parse_failure_takes_catch_path_witness :
    botAppends (sendMessage "hi" (.response 200 none)).1 =
      [⟨networkErrorText, true, some ⟨"error", 0⟩⟩] ∧
    networkErrorText ≠ fallbackText :=
  json_parse_failure_takes_catch_path "hi" 200 (by decide) (by decide)
